import Mathlib

/-!
Verification of the data-transformation core of `app_compare.py`
(financial_analysis_compare).

Shallow embedding conventions:
  * pandas numeric cells are modelled as rationals (`ℚ`); after cleaning the
    table holds no NaN, so totality is faithful;
  * a data frame row is either the fixed record `Row` (for the filtering,
    growth-index and per-tab derivations, which only touch fixed columns) or
    an association list over column names (for the dynamic-column logic of
    `safe_get_values` and the table column filters);
  * `.copy()` followed by column assignment is embedded as the construction
    of a fresh value, which is exactly what a copy-then-mutate sequence
    denotes for every other observer of the original frame;
  * `pd.to_numeric(..., errors='coerce')` is an external parser; the cleaning
    pipeline is parameterised by `parse : String → Option ℚ` standing for it.
-/

/-- Fixed display-name → data-name mapping, `COMPANY_NAME_MAPPING`
(app_compare.py lines 126-130). -/
def COMPANY_NAME_MAPPING : List (String × String) :=
  [("フジ・リテイリング", "フジ"),
   ("U.S.M.H", "USMH"),
   ("マックスバリュ東海", "マックスバリュー東海")]

/-- Inverse mapping, `COMPANY_NAME_REVERSE_MAPPING` (line 133):
`{v: k for k, v in COMPANY_NAME_MAPPING.items()}`. -/
def COMPANY_NAME_REVERSE_MAPPING : List (String × String) :=
  COMPANY_NAME_MAPPING.map (fun p => (p.2, p.1))

/-- Function `get_data_name` (lines 135-137): `COMPANY_NAME_MAPPING.get(display_name, display_name)`. -/
def get_data_name (display_name : String) : String :=
  ((COMPANY_NAME_MAPPING.find? (fun p => p.1 == display_name)).map Prod.snd).getD display_name

/-- Function `get_display_name` (lines 139-141): reverse-mapping lookup with pass-through default. -/
def get_display_name (data_name : String) : String :=
  ((COMPANY_NAME_REVERSE_MAPPING.find? (fun p => p.1 == data_name)).map Prod.snd).getD data_name

/-- Function `get_data_names` (lines 143-145): element-wise `get_data_name`. -/
def get_data_names (display_names : List String) : List String :=
  display_names.map get_data_name

/-- Function `get_display_names` (lines 147-149): element-wise `get_display_name`. -/
def get_display_names (data_names : List String) : List String :=
  data_names.map get_display_name

/-- Function `safe_divide` (lines 62-64): `np.where(denominator != 0, numerator / denominator, default)`,
expressed per element. -/
def safe_divide (numerator denominator default : ℚ) : ℚ :=
  if denominator ≠ 0 then numerator / denominator else default

/-- Element-wise `safe_divide` over two columns of equal length (the
`np.where` broadcast over Series arguments). -/
def safe_divide_vec (numerators denominators : List ℚ) (default : ℚ) : List ℚ :=
  List.zipWith (fun n d => safe_divide n d default) numerators denominators

/-- Per-cell unit conversion inside `convert_to_million` (line 59):
`(x / 1000000.0) if pd.notna(x) and np.abs(x) >= 100000 else x`
(after cleaning no cell is NaN, so the `notna` guard is vacuous). -/
def convert_cell (x : ℚ) : ℚ :=
  if 100000 ≤ |x| then x / 1000000 else x

/-- A data-frame column: numeric (`int64`/`float64` dtype) or non-numeric. -/
inductive ColData where
  | num (vals : List ℚ)
  | str (vals : List String)
deriving DecidableEq

/-- Function `convert_to_million` (lines 54-60): applies `convert_cell` to every cell of
every numeric column, leaving non-numeric columns untouched. -/
def convert_to_million (cols : List (String × ColData)) : List (String × ColData) :=
  cols.map (fun p => (p.1,
    match p.2 with
    | ColData.num vs => ColData.num (vs.map convert_cell)
    | ColData.str vs => ColData.str vs))

/-- The three identifying columns dropped from numeric cleaning (line 115):
`df.columns.drop(['企業名', '決算年度', '決算四半期'])`. -/
def idCols : List String := ["企業名", "決算年度", "決算四半期"]

/-- Cleaning of one raw cell (line 117):
`pd.to_numeric(cell.replace('-', '0').replace('', '0'), errors='coerce').fillna(0)`,
with `parse` standing for `pd.to_numeric(·, errors='coerce')`. -/
def clean_cell (parse : String → Option ℚ) (s : String) : ℚ :=
  (parse (if s = "-" ∨ s = "" then "0" else s)).getD 0

/-- A cleaned cell: identifying columns keep their raw string, every other
column has been coerced to a number. -/
inductive CellVal where
  | str (s : String)
  | num (q : ℚ)
deriving DecidableEq

/-- Cleaning of one parsed row (lines 115-117): identifying columns are kept,
all other columns go through `clean_cell`. -/
def clean_row (parse : String → Option ℚ) (row : List (String × String)) :
    List (String × CellVal) :=
  row.map (fun p =>
    (p.1, if idCols.contains p.1 then CellVal.str p.2 else CellVal.num (clean_cell parse p.2)))

/-- The cleaning stage of `load_financial_data` (lines 112-121), applied to the
parsed rows of the spreadsheet. -/
def load_financial_data (parse : String → Option ℚ) (rows : List (List (String × String))) :
    List (List (String × CellVal)) :=
  rows.map (clean_row parse)

/-- A concrete parser instance used to exercise the cleaning pipeline. -/
def exParse (s : String) : Option ℚ :=
  if s = "0" then some 0 else if s = "7" then some 7 else none

/-- C9: `safe_divide(n, 0, default=0) = 0` for every `n`; a nonzero
denominator yields the exact quotient; the concrete case
`safe_divide(10, 4) = 2.5` holds. -/
theorem C9_safe_divide :
    (∀ n default : ℚ, safe_divide n 0 default = default) ∧
    (∀ n d default : ℚ, d ≠ 0 → safe_divide n d default = n / d) ∧
    safe_divide 10 4 0 = 5 / 2 ∧
    (∀ ns ds : List ℚ, ∀ default : ℚ,
      safe_divide_vec ns ds default =
        List.zipWith (fun n d => if d ≠ 0 then n / d else default) ns ds) := by
  refine ⟨fun n default => by simp [safe_divide], fun n d default hd => by simp [safe_divide, hd],
    ?_, fun ns ds default => rfl⟩
  norm_num [safe_divide]

/-- Witness for C9: the nonzero-denominator branch at `n = 1`, `d = 2`. -/
theorem C9_witness : safe_divide 1 2 0 = 1 / 2 :=
  C9_safe_divide.2.1 1 2 0 (by norm_num)

/-- C5: round trip `to_display (to_data x) = x` on every display label of the
fixed mapping, and both functions are the identity on any label outside the
mapping (outside both the display-label and the data-label key sets). -/
theorem C5_name_roundtrip :
    (∀ x, x ∈ COMPANY_NAME_MAPPING.map Prod.fst → get_display_name (get_data_name x) = x) ∧
    (∀ x, x ∉ COMPANY_NAME_MAPPING.map Prod.fst →
      x ∉ COMPANY_NAME_REVERSE_MAPPING.map Prod.fst →
      get_data_name x = x ∧ get_display_name x = x) := by
  constructor
  · intro x hx
    simp only [COMPANY_NAME_MAPPING, List.map_cons, List.map_nil, List.mem_cons,
      List.not_mem_nil, or_false] at hx
    rcases hx with h | h | h <;> subst h <;> decide
  · intro x hfwd hrev
    simp only [COMPANY_NAME_MAPPING, COMPANY_NAME_REVERSE_MAPPING, List.map_cons, List.map_nil,
      List.mem_cons, List.not_mem_nil, or_false, not_or] at hfwd hrev
    obtain ⟨h1, h2, h3⟩ := hfwd
    obtain ⟨g1, g2, g3⟩ := hrev
    constructor
    · simp [get_data_name, COMPANY_NAME_MAPPING, List.find?,
        show ("フジ・リテイリング" == x) = false from by simpa using fun h => h1 h.symm,
        show ("U.S.M.H" == x) = false from by simpa using fun h => h2 h.symm,
        show ("マックスバリュ東海" == x) = false from by simpa using fun h => h3 h.symm]
    · simp [get_display_name, COMPANY_NAME_REVERSE_MAPPING, COMPANY_NAME_MAPPING, List.find?,
        show ("フジ" == x) = false from by simpa using fun h => g1 h.symm,
        show ("USMH" == x) = false from by simpa using fun h => g2 h.symm,
        show ("マックスバリュー東海" == x) = false from by simpa using fun h => g3 h.symm]

/-- Witness for C5: the round trip at `"U.S.M.H"` and identity at `"イオン"`. -/
theorem C5_witness :
    get_display_name (get_data_name "U.S.M.H") = "U.S.M.H" ∧
    get_data_name "イオン" = "イオン" ∧ get_display_name "イオン" = "イオン" :=
  ⟨C5_name_roundtrip.1 "U.S.M.H" (by decide),
   C5_name_roundtrip.2 "イオン" (by decide) (by decide)⟩

/-- C3: unit scaling is per cell — every numeric cell with `|x| ≥ 100000`
becomes `x / 1000000`, every numeric cell below the threshold and every
non-numeric column is unchanged, and a single column can mix scaled and
unscaled values (shown on the concrete column `[200000, 5]`). -/
theorem C3_unit_scaling :
    (∀ x : ℚ, 100000 ≤ |x| → convert_cell x = x / 1000000) ∧
    (∀ x : ℚ, |x| < 100000 → convert_cell x = x) ∧
    (∀ cols : List (String × ColData), ∀ name vs,
      (name, ColData.str vs) ∈ cols → (name, ColData.str vs) ∈ convert_to_million cols) ∧
    (∀ cols : List (String × ColData), ∀ name vs,
      (name, ColData.num vs) ∈ cols →
      (name, ColData.num (vs.map convert_cell)) ∈ convert_to_million cols) ∧
    convert_to_million [("c", ColData.num [200000, 5])] =
      [("c", ColData.num [1 / 5, 5])] := by
  refine ⟨fun x hx => by simp [convert_cell, hx],
    fun x hx => by simp [convert_cell, not_le.mpr hx], ?_, ?_, ?_⟩
  · intro cols name vs h
    have := List.mem_map_of_mem
      (fun p : String × ColData => (p.1,
        match p.2 with
        | ColData.num vs => ColData.num (vs.map convert_cell)
        | ColData.str vs => ColData.str vs)) h
    simpa [convert_to_million] using this
  · intro cols name vs h
    have := List.mem_map_of_mem
      (fun p : String × ColData => (p.1,
        match p.2 with
        | ColData.num vs => ColData.num (vs.map convert_cell)
        | ColData.str vs => ColData.str vs)) h
    simpa [convert_to_million] using this
  · simp only [convert_to_million, List.map_cons, List.map_nil]
    norm_num [convert_cell, abs_of_nonneg]

/-- Witness for C3: the threshold branches at `x = 200000` and `x = 5`. -/
theorem C3_witness :
    convert_cell 200000 = 200000 / 1000000 ∧ convert_cell 5 = 5 :=
  ⟨C3_unit_scaling.1 200000 (by norm_num), C3_unit_scaling.2.1 5 (by norm_num)⟩

/-- C4: for every non-identifying column, a cell equal to `"-"` or `""` is
replaced by `"0"` and parses to `0`; a cell the parser rejects becomes `0`; a
cell the parser accepts keeps its parsed value; and after loading every
non-identifying field of every row is a (finite) rational number — no
missing-value marker survives. Hypothesis `hparse` records that the external
numeric parser maps the literal `"0"` to `0`. -/
theorem C4_loading_cleanup (parse : String → Option ℚ) (hparse : parse "0" = some 0) :
    (∀ s, s = "-" ∨ s = "" → clean_cell parse s = 0) ∧
    (∀ s, parse s = none → clean_cell parse s = 0) ∧
    (∀ s q, ¬(s = "-" ∨ s = "") → parse s = some q → clean_cell parse s = q) ∧
    (∀ rows row cell, row ∈ load_financial_data parse rows → cell ∈ row →
      ¬ idCols.contains cell.1 = true → ∃ q : ℚ, cell.2 = CellVal.num q) := by
  refine ⟨fun s hs => by simp [clean_cell, hs, hparse], ?_, ?_, ?_⟩
  · intro s hs
    by_cases h : s = "-" ∨ s = ""
    · simp [clean_cell, h, hparse]
    · simp [clean_cell, h, hs]
  · intro s q hs hq
    simp [clean_cell, hs, hq]
  · intro rows row cell hrow hcell hid
    simp only [load_financial_data, List.mem_map] at hrow
    obtain ⟨raw, _, hraw⟩ := hrow
    subst hraw
    simp only [clean_row, List.mem_map] at hcell
    obtain ⟨p, _, hp⟩ := hcell
    subst hp
    have hnotmem : p.1 ∉ idCols := by simpa using hid
    exact ⟨clean_cell parse p.2, by simp [hnotmem]⟩

/-- Witness for C4: the concrete parser `exParse` on the sentinel `"-"`, the
empty string, an unparseable cell and a parseable cell, plus the
all-numeric-fields invariant on a concrete loaded table. -/
theorem C4_witness :
    clean_cell exParse "-" = 0 ∧
    clean_cell exParse "" = 0 ∧
    clean_cell exParse "abc" = 0 ∧
    clean_cell exParse "7" = 7 ∧
    (∃ q : ℚ,
      (("売上高", CellVal.num (clean_cell exParse "7")) : String × CellVal).2 = CellVal.num q) := by
  have h := C4_loading_cleanup exParse (by decide)
  have hcr : clean_row exParse [("売上高", "7")] =
      [("売上高", CellVal.num (clean_cell exParse "7"))] := rfl
  refine ⟨h.1 "-" (Or.inl rfl), h.1 "" (Or.inr rfl), h.2.1 "abc" (by decide),
    h.2.2.1 "7" 7 (by decide) (by decide), ?_⟩
  exact h.2.2.2 [[("売上高", "7")]] (clean_row exParse [("売上高", "7")])
    ("売上高", CellVal.num (clean_cell exParse "7"))
    (by simp [load_financial_data]) (by rw [hcr]; exact List.mem_singleton.mpr rfl) (by decide)


/-- One row of the loaded table, restricted to the columns the verified
transformations read. Field names romanise the spreadsheet headers:
`company` = 企業名, `year` = 決算年度, `sales` = 売上高,
`gross_margin` = 売上総利益率, `sgna` = 販管費, `op_profit` = 営業利益,
`op_margin` = 営業利益率, `inventory` = 棚卸資産,
`employees` = 従業員数, `part_time` = パート社員. -/
structure Row where
  company : String
  year : ℤ
  sales : ℚ
  gross_margin : ℚ
  sgna : ℚ
  op_profit : ℚ
  op_margin : ℚ
  inventory : ℚ
  employees : ℚ
  part_time : ℚ
deriving DecidableEq

/-- The current-period filter (lines 246-247):
`mask = (df_raw['企業名'].isin(selected_companies)) & (df_raw['決算年度'] == selected_year)`,
then `df_raw[mask].copy()`. -/
def df_compare_of (df_raw : List Row) (selected_companies : List String)
    (selected_year : ℤ) : List Row :=
  df_raw.filter (fun r => selected_companies.contains r.company && r.year == selected_year)

/-- The trend filter (lines 250-255): companies in the chosen set and fiscal
year within `[selected_year - 4, selected_year]`. -/
def df_trend_of (df_raw : List Row) (selected_companies : List String)
    (selected_year : ℤ) : List Row :=
  df_raw.filter (fun r => selected_companies.contains r.company &&
    (decide (selected_year - 4 ≤ r.year) && decide (r.year ≤ selected_year)))

/-- Base-year rows for the growth index (line 298):
`df_raw[(df_raw['企業名'] == company) & (df_raw['決算年度'] == selected_year - 5)]`. -/
def baseRows (df_raw : List Row) (company : String) (selected_year : ℤ) : List Row :=
  df_raw.filter (fun r => r.company == company && r.year == selected_year - 5)

/-- Current rows of a company inside the growth frame (line 302):
`df_growth[df_growth['企業名'] == company]`. -/
def currentRows (df_growth : List Row) (company : String) : List Row :=
  df_growth.filter (fun r => r.company == company)

/-- The per-company revenue-growth value written into the `売上高成長率`
column (lines 296-308). `none` models the case where the base row exists with
positive revenue but the company has no current row, in which case the loop
assigns nothing. -/
def growthIndex (df_raw df_growth : List Row) (company : String)
    (selected_year : ℤ) : Option ℚ :=
  match (baseRows df_raw company selected_year).head? with
  | some base =>
    if 0 < base.sales then
      match (currentRows df_growth company).head? with
      | some cur => some (cur.sales / base.sales)
      | none => none
    else some 1
  | none => some 1

/-- C6: the current-period subset holds exactly the rows whose company is in
the chosen set and whose fiscal year equals the chosen year, and it is a
sublist of the input table (order stable with respect to input order). -/
theorem C6_filtering (df_raw : List Row) (selected_companies : List String)
    (selected_year : ℤ) (_hsel : selected_companies ≠ []) :
    (∀ r, r ∈ df_compare_of df_raw selected_companies selected_year ↔
      r ∈ df_raw ∧ r.company ∈ selected_companies ∧ r.year = selected_year) ∧
    (df_compare_of df_raw selected_companies selected_year).Sublist df_raw := by
  refine ⟨fun r => ?_, List.filter_sublist df_raw⟩
  simp [df_compare_of, List.mem_filter, and_assoc]

/-- Rows used to exercise the filtering and growth-index definitions. -/
def rowOf (c : String) (y : ℤ) (sales : ℚ) : Row :=
  ⟨c, y, sales, 0, 0, 0, 0, 0, 0, 0⟩

/-- A concrete table with companies A, B, C over years 2019/2020 plus a
2015 base row for A. -/
def exTable : List Row :=
  [rowOf "A" 2015 100, rowOf "A" 2019 120, rowOf "A" 2020 150,
   rowOf "B" 2019 80, rowOf "B" 2020 90, rowOf "C" 2019 60, rowOf "C" 2020 70]

/-- Witness for C6: filtering `exTable` to companies `{A, B}` and year 2020
keeps exactly the two matching rows, in input order. -/
theorem C6_witness :
    (rowOf "A" 2020 150 ∈ df_compare_of exTable ["A", "B"] 2020 ↔
      rowOf "A" 2020 150 ∈ exTable ∧ (rowOf "A" 2020 150).company ∈ ["A", "B"] ∧
        (rowOf "A" 2020 150).year = 2020) ∧
    (df_compare_of exTable ["A", "B"] 2020).Sublist exTable :=
  ⟨(C6_filtering exTable ["A", "B"] 2020 (by decide)).1 (rowOf "A" 2020 150),
   (C6_filtering exTable ["A", "B"] 2020 (by decide)).2⟩

/-- C2: the revenue growth index uses base year `selected_year - 5`; when the
first base row exists with revenue `> 0` and the company has a current row,
the index is current revenue over base revenue; when the base row exists with
revenue `0`, or no base row exists, the index is `1.0`. -/
theorem C2_growth_index (df_raw df_growth : List Row) (company : String)
    (selected_year : ℤ) :
    (∀ base cur, (baseRows df_raw company selected_year).head? = some base →
      0 < base.sales → (currentRows df_growth company).head? = some cur →
      growthIndex df_raw df_growth company selected_year = some (cur.sales / base.sales)) ∧
    (∀ base, (baseRows df_raw company selected_year).head? = some base →
      base.sales = 0 →
      growthIndex df_raw df_growth company selected_year = some 1) ∧
    (baseRows df_raw company selected_year = [] →
      growthIndex df_raw df_growth company selected_year = some 1) := by
  refine ⟨?_, ?_, ?_⟩
  · intro base cur hbase hpos hcur
    simp [growthIndex, hbase, hpos, hcur]
  · intro base hbase hz
    simp [growthIndex, hbase, hz]
  · intro hempty
    simp [growthIndex, hempty]

/-- Witness for C2: company A has revenue 100 in 2015 and 150 in 2020, so the
growth index for year 2020 is `150 / 100 = 1.5`; company B has no 2015 row, so
its index defaults to `1.0`. -/
theorem C2_witness :
    growthIndex exTable (df_compare_of exTable ["A", "B"] 2020) "A" 2020 = some (3 / 2) ∧
    growthIndex exTable (df_compare_of exTable ["A", "B"] 2020) "B" 2020 = some 1 := by
  constructor
  · have h := (C2_growth_index exTable (df_compare_of exTable ["A", "B"] 2020) "A" 2020).1
      (rowOf "A" 2015 100) (rowOf "A" 2020 150) (by rfl) (by norm_num [rowOf]) (by rfl)
    rw [h]
    norm_num [rowOf]
  · exact (C2_growth_index exTable (df_compare_of exTable ["A", "B"] 2020) "B" 2020).2.2 (by rfl)

/-- Numpy-style rounding to an integer: half-way values go to the nearest
even integer, everything else to the nearest integer. -/
def roundHalfEven (x : ℚ) : ℤ :=
  if x - ⌊x⌋ = 1 / 2 then (if ⌊x⌋ % 2 = 0 then ⌊x⌋ else ⌊x⌋ + 1) else round x

/-- Rounding `Series.round(digits)` on one cell (numpy half-even rounding at the given
number of decimal digits). -/
def pyRound (x : ℚ) (digits : ℕ) : ℚ :=
  (roundHalfEven (x * 10 ^ digits) : ℚ) / 10 ^ digits

/-- Warning message for an empty company selection (line 243). -/
def warnEmptySelectionMsg : String := "⚠️ 比較する企業を1社以上選択してください。"

/-- Warning message for an empty filtered subset (line 260). -/
def warnNoRowsMsg : String := "選択された条件に該当するデータがありません。"

/-- Outcome of one interaction cycle: a non-fatal advisory (carrying its
message, with no filtered subset), or a full render carrying the
current-period subset and the derived tables of the PL/BS/productivity tabs
(each derived row keeps its source `Row` next to the added columns). -/
inductive CycleOut where
  | warn (msg : String)
  | render (compare : List Row) (growth : List (Row × Option ℚ))
      (bs : List (Row × ℚ)) (prod : List (Row × (ℚ × ℚ × ℚ × ℚ)))
      (trend : Option (List Row))
deriving DecidableEq

/-- The growth frame `df_growth` (lines 296-308): the current-period subset
with the per-company `売上高成長率` value attached to each row. -/
def df_growth_of (df_raw compare : List Row) (selected_year : ℤ) :
    List (Row × Option ℚ) :=
  compare.map (fun r => (r, growthIndex df_raw compare r.company selected_year))

/-- The BS frame `df_bs` (lines 675-676): the current-period subset with
`棚卸資産回転率 = safe_divide(売上高, 棚卸資産).round(1)` attached. -/
def df_bs_of (compare : List Row) : List (Row × ℚ) :=
  compare.map (fun r => (r, pyRound (safe_divide r.sales r.inventory 0) 1))

/-- The productivity frame `df_prod` (lines 804-810): the current-period
subset with the four per-employee metrics attached
(`total_employees = 従業員数 + パート社員`). -/
def df_prod_of (compare : List Row) : List (Row × (ℚ × ℚ × ℚ × ℚ)) :=
  compare.map (fun r =>
    (r, (pyRound (safe_divide r.sales r.employees 0) 2,
         pyRound (safe_divide r.op_profit r.employees 0) 2,
         pyRound (safe_divide r.sales (r.employees + r.part_time) 0) 2,
         pyRound (safe_divide r.op_profit (r.employees + r.part_time) 0) 2)))

/-- One interaction cycle (lines 242-260 and the tab bodies): an empty
selection emits the empty-selection advisory; a non-empty selection with an
empty current-period subset emits the no-matching-rows advisory; otherwise
the derived frames are computed from copies. The second component is the
shared table after the cycle. -/
def renderCycle (df_raw : List Row) (selected_companies : List String)
    (selected_year : ℤ) (show_trend : Bool) : CycleOut × List Row :=
  if selected_companies = [] then
    (CycleOut.warn warnEmptySelectionMsg, df_raw)
  else
    let compare := df_compare_of df_raw selected_companies selected_year
    if compare = [] then
      (CycleOut.warn warnNoRowsMsg, df_raw)
    else
      (CycleOut.render compare
        (df_growth_of df_raw compare selected_year)
        (df_bs_of compare)
        (df_prod_of compare)
        (if show_trend then some (df_trend_of df_raw selected_companies selected_year)
         else none),
       df_raw)

/-- The current-period subset carried by a cycle outcome (empty for an
advisory, which computes no subset). -/
def CycleOut.compareOf : CycleOut → List Row
  | CycleOut.warn _ => []
  | CycleOut.render c _ _ _ _ => c

/-- The source rows underlying the growth frame of a cycle outcome. -/
def CycleOut.growthBase : CycleOut → List Row
  | CycleOut.warn _ => []
  | CycleOut.render _ g _ _ _ => g.map Prod.fst

/-- The source rows underlying the BS frame of a cycle outcome. -/
def CycleOut.bsBase : CycleOut → List Row
  | CycleOut.warn _ => []
  | CycleOut.render _ _ b _ _ => b.map Prod.fst

/-- The source rows underlying the productivity frame of a cycle outcome. -/
def CycleOut.prodBase : CycleOut → List Row
  | CycleOut.warn _ => []
  | CycleOut.render _ _ _ p _ => p.map Prod.fst

/-- C8: an empty company selection yields the empty-selection advisory with no
filtered subset; a non-empty selection whose current-period subset is empty
yields the distinct no-matching-rows advisory; the two advisory messages
differ, and in both cases the cycle terminates normally (returning the table
unchanged) rather than crashing. -/
theorem C8_advisories (df_raw : List Row) (selected_companies : List String)
    (selected_year : ℤ) (show_trend : Bool) :
    (selected_companies = [] →
      renderCycle df_raw selected_companies selected_year show_trend =
        (CycleOut.warn warnEmptySelectionMsg, df_raw)) ∧
    (selected_companies ≠ [] →
      df_compare_of df_raw selected_companies selected_year = [] →
      renderCycle df_raw selected_companies selected_year show_trend =
        (CycleOut.warn warnNoRowsMsg, df_raw)) ∧
    warnEmptySelectionMsg ≠ warnNoRowsMsg := by
  refine ⟨?_, ?_, by decide⟩
  · intro h
    simp [renderCycle, h]
  · intro hne hempty
    simp [renderCycle, hne, hempty]

/-- Witness for C8: both advisory branches on concrete inputs — the empty
selection, and the selection `["Z"]` that matches no row of `exTable`. -/
theorem C8_witness :
    renderCycle exTable [] 2020 false = (CycleOut.warn warnEmptySelectionMsg, exTable) ∧
    renderCycle exTable ["Z"] 2020 false = (CycleOut.warn warnNoRowsMsg, exTable) :=
  ⟨(C8_advisories exTable [] 2020 false).1 rfl,
   (C8_advisories exTable ["Z"] 2020 false).2.1 (by decide) (by rfl)⟩

/-- Attaching a derived column and projecting it away returns the source
rows unchanged. -/
theorem map_fst_pairing {α β : Type} (f : α → β) (l : List α) :
    (l.map (fun r => (r, f r))).map Prod.fst = l := by
  induction l with
  | nil => rfl
  | cons x xs ih => simp [ih]

/-- C10: a render cycle leaves the loaded table unchanged — the table after
the cycle equals the table before it, the current-period subset is a sublist
(not a mutation) of the table, and each derived frame (growth, BS,
productivity) carries the current-period rows unchanged beside its added
columns. -/
theorem C10_immutability (df_raw : List Row) (selected_companies : List String)
    (selected_year : ℤ) (show_trend : Bool) :
    (renderCycle df_raw selected_companies selected_year show_trend).2 = df_raw ∧
    ((renderCycle df_raw selected_companies selected_year show_trend).1).compareOf.Sublist
      df_raw ∧
    ((renderCycle df_raw selected_companies selected_year show_trend).1).growthBase =
      ((renderCycle df_raw selected_companies selected_year show_trend).1).compareOf ∧
    ((renderCycle df_raw selected_companies selected_year show_trend).1).bsBase =
      ((renderCycle df_raw selected_companies selected_year show_trend).1).compareOf ∧
    ((renderCycle df_raw selected_companies selected_year show_trend).1).prodBase =
      ((renderCycle df_raw selected_companies selected_year show_trend).1).compareOf := by
  by_cases h1 : selected_companies = []
  · simp [renderCycle, h1, CycleOut.compareOf, CycleOut.growthBase, CycleOut.bsBase,
      CycleOut.prodBase]
  · by_cases h2 : df_compare_of df_raw selected_companies selected_year = []
    · simp [renderCycle, h1, h2, CycleOut.compareOf, CycleOut.growthBase, CycleOut.bsBase,
        CycleOut.prodBase]
    · have hr : renderCycle df_raw selected_companies selected_year show_trend =
        (CycleOut.render (df_compare_of df_raw selected_companies selected_year)
          (df_growth_of df_raw (df_compare_of df_raw selected_companies selected_year)
            selected_year)
          (df_bs_of (df_compare_of df_raw selected_companies selected_year))
          (df_prod_of (df_compare_of df_raw selected_companies selected_year))
          (if show_trend then some (df_trend_of df_raw selected_companies selected_year)
           else none),
         df_raw) := by
        simp [renderCycle, h1, h2]
      rw [hr]
      exact ⟨rfl, List.filter_sublist df_raw, map_fst_pairing _ _, map_fst_pairing _ _,
        map_fst_pairing _ _⟩

/-- Fixed industry-group presets, `INDUSTRY_GROUPS` (lines 152-160), given as
display-space labels; the `カスタム` (custom) group is empty. -/
def INDUSTRY_GROUPS : List (String × List String) :=
  [("イオングループ",
    ["イオン北海道", "イオン九州", "マックスバリュ東海", "フジ・リテイリング", "U.S.M.H", "ツルハ"]),
   ("ドラッグストア",
    ["ツルハ", "マツキヨココカラ", "コスモス薬品", "クリエイトSD", "サンドラッグ", "スギ薬局", "クスリのアオキ"]),
   ("ホームセンター",
    ["DCMHD", "コーナン", "コメリ", "アークランズ", "ジョイフル本田"]),
   ("スーパーマーケット（全国）",
    ["PPIH", "トライアル"]),
   ("スーパーマーケット（東日本）",
    ["イオン北海道", "アークス", "ヤオコー", "ライフ", "ベルク", "U.S.M.H"]),
   ("スーパーマーケット（西日本）",
    ["平和堂", "バロー", "イズミ", "ライフ", "ハローズ", "マックスバリュ東海", "フジ・リテイリング"]),
   ("カスタム", [])]

/-- Stable insertion into an ascending list (auxiliary for `pySorted`). -/
def insertAsc (x : String) : List String → List String
  | [] => [x]
  | y :: ys => if x ≤ y then x :: y :: ys else y :: insertAsc x ys

/-- Python's `sorted` on strings: stable ascending insertion sort. -/
def pySorted (l : List String) : List String :=
  l.foldr insertAsc []

/-- Definition `available_display_names` (line 194):
`sorted([get_display_name(c) for c in available_data_names])`. -/
def available_display_names (available_data_names : List String) : List String :=
  pySorted (available_data_names.map get_display_name)

/-- The default company selection fed to the multi-select (lines 203-224):
the custom group takes the first 5 sorted available display names; a named
group keeps its preset display labels whose data-space name is an available
company, truncated to 7. -/
def default_display_names (industry_choice : String)
    (available_data_names : List String) : List String :=
  if industry_choice = "カスタム" then
    (available_display_names available_data_names).take 5
  else
    (((INDUSTRY_GROUPS.lookup industry_choice).getD []).filter
      (fun name => available_data_names.contains (get_data_name name))).take 7

/-- Filtering by a predicate on the image commutes with mapping. -/
theorem map_filter_by_image {α β : Type} (f : α → β) (p : β → Bool) (l : List α) :
    (l.filter (fun a => p (f a))).map f = (l.map f).filter p := by
  induction l with
  | nil => rfl
  | cons x xs ih =>
    by_cases hx : p (f x)
    · simp [List.filter_cons, hx, ih]
    · simp [List.filter_cons, hx, ih]

/-- C7: for a named industry group, the default selection in data space equals
the group's display-label list converted to data-space labels, intersected
(in list order) with the companies present in the table, truncated to 7 — and
never exceeds 7 entries; for the custom group, it is the first 5 of all
available companies sorted alphabetically by display label — and never
exceeds 5 entries. -/
theorem C7_preset_resolution (industry_choice : String)
    (available_data_names : List String) :
    (∀ preset, industry_choice ≠ "カスタム" →
      INDUSTRY_GROUPS.lookup industry_choice = some preset →
      get_data_names (default_display_names industry_choice available_data_names) =
        ((get_data_names preset).filter
          (fun n => available_data_names.contains n)).take 7 ∧
      (default_display_names industry_choice available_data_names).length ≤ 7) ∧
    (industry_choice = "カスタム" →
      default_display_names industry_choice available_data_names =
        (available_display_names available_data_names).take 5 ∧
      (default_display_names industry_choice available_data_names).length ≤ 5) := by
  constructor
  · intro preset hne hlook
    have hdef : default_display_names industry_choice available_data_names =
        (preset.filter
          (fun name => available_data_names.contains (get_data_name name))).take 7 := by
      simp [default_display_names, hne, hlook]
    constructor
    · rw [hdef, get_data_names, List.map_take,
        map_filter_by_image get_data_name (fun n => available_data_names.contains n) preset]
      rfl
    · rw [hdef]
      exact List.length_take_le 7 _
  · intro hc
    refine ⟨by simp [default_display_names, hc], ?_⟩
    simp only [default_display_names, hc, if_pos]
    exact List.length_take_le 5 _

/-- Witness for C7: the `ホームセンター` preset against a table that has only
two of its members, and the custom group over the same table. -/
theorem C7_witness :
    get_data_names (default_display_names "ホームセンター" ["コメリ", "コーナン"]) =
      ((get_data_names ["DCMHD", "コーナン", "コメリ", "アークランズ", "ジョイフル本田"]).filter
        (fun n => (["コメリ", "コーナン"] : List String).contains n)).take 7 ∧
    default_display_names "カスタム" ["コメリ", "コーナン"] =
      (available_display_names ["コメリ", "コーナン"]).take 5 :=
  ⟨((C7_preset_resolution "ホームセンター" ["コメリ", "コーナン"]).1
      ["DCMHD", "コーナン", "コメリ", "アークランズ", "ジョイフル本田"] (by decide) (by rfl)).1,
   ((C7_preset_resolution "カスタム" ["コメリ", "コーナン"]).2 rfl).1⟩

/-- A data frame with dynamic columns: the column-name list plus each row as
an association list from column name to (cleaned, hence total) numeric value. -/
structure DFrame where
  cols : List String
  data : List (List (String × ℚ))

/-- Function `safe_get_values` (lines 376-379): if the column is present, return its
values (`fillna(default)`, modelled by the lookup default); otherwise return
`[default] * len(df)` — a placeholder list, not a skip. -/
def safe_get_values (df : DFrame) (col_name : String) (default : ℚ) : List ℚ :=
  if df.cols.contains col_name then
    df.data.map (fun row => ((row.find? (fun p => p.1 == col_name)).map Prod.snd).getD default)
  else
    List.replicate df.data.length default

/-- The four KPI chart series of the profitability block (lines 385-437):
each metric is plotted unconditionally from `safe_get_values`. -/
def kpiChartSeries (df : DFrame) : List (String × List ℚ) :=
  [("ROIC", safe_get_values df "ROIC" 0),
   ("実質ROE", safe_get_values df "実質ROE" 0),
   ("ROA", safe_get_values df "ROA" 0),
   ("ROE", safe_get_values df "ROE" 0)]

/-- Requested KPI table metrics, `kpi_metrics` (line 503). -/
def kpi_metrics : List String :=
  ["ROIC", "実質ROE", "ROA", "ROE", "営業利益率", "自己資本比率"]

/-- Definition `available_kpi_metrics` (line 504): `[m for m in kpi_metrics if m in df_compare.columns]`. -/
def available_kpi_metrics (df : DFrame) : List String :=
  kpi_metrics.filter (fun m => df.cols.contains m)

/-- Requested BS table columns, `bs_cols` (line 715). -/
def bs_cols : List String :=
  ["企業名_表示", "総資産", "流動資産", "固定資産", "棚卸資産", "有利子負債", "純資産",
   "自己資本比率", "総資産回転率", "棚卸資産回転率"]

/-- The BS table column selection (line 716): `[c for c in bs_cols if c in df_bs.columns]`. -/
def available_bs_cols (df : DFrame) : List String :=
  bs_cols.filter (fun c => df.cols.contains c)

/-- A concrete two-row frame that lacks the `ROIC` column. -/
def exFrame : DFrame :=
  ⟨["企業名_表示", "実質ROE", "ROA", "ROE", "営業利益率", "自己資本比率"],
   [[("ROA", 1)], [("ROA", 2)]]⟩

/-- Counterexample to C1: on a table without the `ROIC` column, the KPI chart
still renders a `ROIC` series, filled with the placeholder default `0` once
per row, so the set of chart-displayed metrics is not `requested ∩ available`
and an absent metric is not skipped in charts. -/
theorem C1_counterexample :
    "ROIC" ∉ exFrame.cols ∧
    "ROIC" ∉ available_kpi_metrics exFrame ∧
    safe_get_values exFrame "ROIC" 0 = [0, 0] ∧
    "ROIC" ∈ (kpiChartSeries exFrame).map Prod.fst := by
  refine ⟨by decide, by decide, by rfl, by decide⟩

/-- C1 amended: the table renders do display exactly
`requested ∩ available` (the KPI table and the BS table filter their column
lists against the frame's columns, preserving request order), and no crash
occurs for an absent column — but chart series are not skipped: every
requested chart metric is always rendered, an absent column yielding a
placeholder list of the default value repeated once per row. -/
theorem C1_requested_intersect_available (df : DFrame) :
    (∀ m, m ∈ available_kpi_metrics df ↔ m ∈ kpi_metrics ∧ m ∈ df.cols) ∧
    (∀ c, c ∈ available_bs_cols df ↔ c ∈ bs_cols ∧ c ∈ df.cols) ∧
    (available_kpi_metrics df).Sublist kpi_metrics ∧
    (available_bs_cols df).Sublist bs_cols ∧
    (∀ col d, col ∉ df.cols →
      safe_get_values df col d = List.replicate df.data.length d) ∧
    (kpiChartSeries df).map Prod.fst = ["ROIC", "実質ROE", "ROA", "ROE"] := by
  refine ⟨fun m => ?_, fun c => ?_, List.filter_sublist kpi_metrics,
    List.filter_sublist bs_cols, fun col d h => ?_, rfl⟩
  · simp [available_kpi_metrics, List.mem_filter]
  · simp [available_bs_cols, List.mem_filter]
  · simp [safe_get_values, h]

/-- Witness for C1 (amended): the placeholder branch of `safe_get_values`
evaluated on the concrete frame without a `ROIC` column. -/
theorem C1_witness :
    safe_get_values exFrame "ROIC" 0 = List.replicate exFrame.data.length 0 :=
  (C1_requested_intersect_available exFrame).2.2.2.2.1 "ROIC" 0 (by decide)
